import Mathlib

/- Verification development for the scenario-evaluation engine of a
cost-effectiveness analysis comparing nirsevimab with a maternal RSV vaccine.
The Python numeric code is embedded over an arbitrary linear ordered field
(the idealisation of float arithmetic as exact arithmetic); code that can
raise ValueError is embedded as functions into Except String. -/

namespace VSR

variable {α : Type} [LinearOrderedField α]

/-- Output record of run_scenario: the dict with keys cost and dalys. -/
structure ScenarioResult (α : Type) where
  cost : α
  dalys : α
  deriving DecidableEq

/-- The 23 parameters of util.core.run_scenario, in source order. -/
structure ScenarioInputs (α : Type) where
  cohort : α
  coverage : α
  intervention_dose_cost : α
  severe_case_dw : α
  moderate_case_dw : α
  severe_illness_duration_days : α
  moderate_illness_duration_days : α
  days_in_year : α
  discounted_yll : α
  population_proportions : List α
  hosp_proportions : List α
  outpatient_proportions : List α
  lethality_proportions : List α
  inpatient_costs : List α
  inpatient_pcr_costs : List α
  outpatient_ec_costs : List α
  outpatient_pc_costs : List α
  inpatient_transport_costs : List α
  inpatient_caregiver_salary_losses : List α
  outpatient_transport_costs : List α
  outpatient_caregiver_salary_losses : List α
  hosp_reduction_effs : List α
  malrti_reduction_effs : List α
  deriving DecidableEq

/-- util.core._compute_cases_with_eff -/
def compute_cases_with_eff (population proportion reduction_eff : α) : α :=
  population * proportion * (1 - reduction_eff)

/-- util.core._compute_death_cases -/
def compute_death_cases (cases lethality : α) : α :=
  cases * lethality

/-- util.core._compute_cure_cases -/
def compute_cure_cases (cases deaths : α) : α :=
  cases - deaths

/-- util.core._calculate_subgroup_cost -/
def calculate_subgroup_cost (population hosp_proportion outpatient_proportion
    hosp_reduction_eff malrti_reduction_eff inpatient_cost inpatient_pcr_cost
    inpatient_transport_cost inpatient_salary_loss outpatient_ec_cost
    outpatient_pc_cost outpatient_transport_cost outpatient_salary_loss : α) : α :=
  let hosp_cases := compute_cases_with_eff population hosp_proportion hosp_reduction_eff
  let outpatient_cases := compute_cases_with_eff population outpatient_proportion malrti_reduction_eff
  let inpatient_base := inpatient_cost + inpatient_pcr_cost + inpatient_transport_cost
    + inpatient_salary_loss + outpatient_ec_cost
  let outpatient_base := outpatient_pc_cost + outpatient_transport_cost + outpatient_salary_loss
  hosp_cases * inpatient_base + outpatient_cases * outpatient_base

/-- Message of the ValueError raised when days_in_year is not positive. -/
def days_in_year_msg : String := "days_in_year must be > 0."

/-- util.core._calculate_subgroup_dalys (raises ValueError when days_in_year is not positive). -/
def calculate_subgroup_dalys (population hosp_proportion outpatient_proportion
    hosp_reduction_eff malrti_reduction_eff severe_case_dw moderate_case_dw
    severe_illness_duration_days moderate_illness_duration_days lethality
    days_in_year discounted_yll : α) : Except String α :=
  if days_in_year ≤ 0 then .error days_in_year_msg
  else
    let hosp_cases := compute_cases_with_eff population hosp_proportion hosp_reduction_eff
    let outpatient_cases := compute_cases_with_eff population outpatient_proportion malrti_reduction_eff
    let hosp_death_cases := compute_death_cases hosp_cases lethality
    let hosp_cure_cases := compute_cure_cases hosp_cases hosp_death_cases
    let hosp_duration_years := severe_illness_duration_days / days_in_year
    let outpatient_duration_years := moderate_illness_duration_days / days_in_year
    let hosp_cure_daly := hosp_cure_cases * severe_case_dw * hosp_duration_years
    let hosp_death_daly := hosp_death_cases * severe_case_dw * hosp_duration_years
    let yll_daly := hosp_death_cases * discounted_yll
    let hosp_daly := hosp_cure_daly + hosp_death_daly + yll_daly
    let outpatient_daly := outpatient_cases * moderate_case_dw * outpatient_duration_years
    .ok (hosp_daly + outpatient_daly)

/-- util.core.calculate_salary_loss -/
def calculate_salary_loss (illness_duration_days affected_caregivers_proportion
    caregiver_daily_salary : α) : α :=
  illness_duration_days * affected_caregivers_proportion * caregiver_daily_salary

/-- The 14 sequence lengths collected by run_scenario, in source order. -/
def seqLengths (inp : ScenarioInputs α) : List Nat :=
  [inp.population_proportions.length, inp.hosp_proportions.length,
   inp.outpatient_proportions.length, inp.lethality_proportions.length,
   inp.inpatient_costs.length, inp.inpatient_pcr_costs.length,
   inp.outpatient_ec_costs.length, inp.outpatient_pc_costs.length,
   inp.inpatient_transport_costs.length, inp.inpatient_caregiver_salary_losses.length,
   inp.outpatient_transport_costs.length, inp.outpatient_caregiver_salary_losses.length,
   inp.hosp_reduction_effs.length, inp.malrti_reduction_effs.length]

/-- Message of the ValueError raised when the sequence lengths differ. -/
def length_msg : String := "All subgroup sequences must have identical length."

/-- Message of the ValueError raised when the population proportions do not sum to about 1. -/
def proportion_msg : String := "Subgroup proportions must sum to 1 within 0.001."

/-- One iteration of the loop body of run_scenario at subgroup index i,
threading the pair (total_disease_cost, total_dalys). -/
def scenarioStep (inp : ScenarioInputs α) (acc : α × α) (i : Nat) : Except String (α × α) :=
  let group_pop := inp.cohort * inp.population_proportions.getD i 0
  let treated_pop := group_pop * inp.coverage
  let untreated_pop := group_pop * (1 - inp.coverage)
  let cost_treated := calculate_subgroup_cost treated_pop
    (inp.hosp_proportions.getD i 0) (inp.outpatient_proportions.getD i 0)
    (inp.hosp_reduction_effs.getD i 0) (inp.malrti_reduction_effs.getD i 0)
    (inp.inpatient_costs.getD i 0) (inp.inpatient_pcr_costs.getD i 0)
    (inp.inpatient_transport_costs.getD i 0) (inp.inpatient_caregiver_salary_losses.getD i 0)
    (inp.outpatient_ec_costs.getD i 0) (inp.outpatient_pc_costs.getD i 0)
    (inp.outpatient_transport_costs.getD i 0) (inp.outpatient_caregiver_salary_losses.getD i 0)
  let cost_untreated := calculate_subgroup_cost untreated_pop
    (inp.hosp_proportions.getD i 0) (inp.outpatient_proportions.getD i 0)
    0 0
    (inp.inpatient_costs.getD i 0) (inp.inpatient_pcr_costs.getD i 0)
    (inp.inpatient_transport_costs.getD i 0) (inp.inpatient_caregiver_salary_losses.getD i 0)
    (inp.outpatient_ec_costs.getD i 0) (inp.outpatient_pc_costs.getD i 0)
    (inp.outpatient_transport_costs.getD i 0) (inp.outpatient_caregiver_salary_losses.getD i 0)
  match calculate_subgroup_dalys treated_pop
      (inp.hosp_proportions.getD i 0) (inp.outpatient_proportions.getD i 0)
      (inp.hosp_reduction_effs.getD i 0) (inp.malrti_reduction_effs.getD i 0)
      inp.severe_case_dw inp.moderate_case_dw
      inp.severe_illness_duration_days inp.moderate_illness_duration_days
      (inp.lethality_proportions.getD i 0) inp.days_in_year inp.discounted_yll with
  | .error e => .error e
  | .ok dalys_treated =>
    match calculate_subgroup_dalys untreated_pop
        (inp.hosp_proportions.getD i 0) (inp.outpatient_proportions.getD i 0)
        0 0
        inp.severe_case_dw inp.moderate_case_dw
        inp.severe_illness_duration_days inp.moderate_illness_duration_days
        (inp.lethality_proportions.getD i 0) inp.days_in_year inp.discounted_yll with
    | .error e => .error e
    | .ok dalys_untreated =>
      .ok (acc.1 + (cost_treated + cost_untreated), acc.2 + (dalys_treated + dalys_untreated))

/-- The for loop of run_scenario over the subgroup indices. -/
def scenarioLoop (inp : ScenarioInputs α) : List Nat → α × α → Except String (α × α)
  | [], acc => .ok acc
  | i :: rest, acc =>
    match scenarioStep inp acc i with
    | .error e => .error e
    | .ok acc2 => scenarioLoop inp rest acc2

/-- util.core.run_scenario -/
def run_scenario (inp : ScenarioInputs α) : Except String (ScenarioResult α) :=
  let n := inp.population_proportions.length
  if ¬ (∀ l ∈ seqLengths inp, l = n) then .error length_msg
  else if n = 0 then .ok ⟨inp.cohort * inp.coverage * inp.intervention_dose_cost, 0⟩
  else
    let total_prop := inp.population_proportions.sum
    if ¬ ((999 / 1000 : α) ≤ total_prop ∧ total_prop ≤ (1001 / 1000 : α)) then
      .error proportion_msg
    else
      match scenarioLoop inp (List.range n) (0, 0) with
      | .error e => .error e
      | .ok acc =>
        .ok ⟨acc.1 + inp.cohort * inp.coverage * inp.intervention_dose_cost, acc.2⟩

/- Reference formulas, written from the words of the specification (section 4.1),
to be compared with the embedded source code. -/

/-- Modelled from the spec: cost formula of section 4.1 step 2 for one population split:
hosp_cases times inpatient_unit_total plus outpatient_cases times outpatient_unit_total. -/
def spec_cost_formula (population hosp_proportion outpatient_proportion
    hosp_reduction_eff malrti_reduction_eff inpatient_cost inpatient_pcr_cost
    inpatient_transport_cost inpatient_salary_loss outpatient_ec_cost
    outpatient_pc_cost outpatient_transport_cost outpatient_salary_loss : α) : α :=
  population * hosp_proportion * (1 - hosp_reduction_eff)
      * (inpatient_cost + inpatient_pcr_cost + inpatient_transport_cost
         + inpatient_salary_loss + outpatient_ec_cost)
    + population * outpatient_proportion * (1 - malrti_reduction_eff)
      * (outpatient_pc_cost + outpatient_transport_cost + outpatient_salary_loss)

/-- Modelled from the spec: DALY formula of section 4.1 step 3 for one population split. -/
def spec_daly_formula (population hosp_proportion outpatient_proportion
    hosp_reduction_eff malrti_reduction_eff severe_dw moderate_dw
    severe_days moderate_days lethality days_in_year yll : α) : α :=
  let hosp_cases := population * hosp_proportion * (1 - hosp_reduction_eff)
  let hosp_death_cases := hosp_cases * lethality
  let hosp_cure_cases := hosp_cases - hosp_death_cases
  hosp_cure_cases * severe_dw * (severe_days / days_in_year)
    + hosp_death_cases * severe_dw * (severe_days / days_in_year)
    + hosp_death_cases * yll
    + population * outpatient_proportion * (1 - malrti_reduction_eff)
      * moderate_dw * (moderate_days / days_in_year)

/-- Modelled from the spec: the cost contribution of subgroup i, summing the treated split
(with the effectiveness of subgroup i) and the untreated split (effectiveness 0). -/
def spec_subgroup_cost (inp : ScenarioInputs α) (i : Nat) : α :=
  let treated := inp.cohort * inp.population_proportions.getD i 0 * inp.coverage
  let untreated := inp.cohort * inp.population_proportions.getD i 0 * (1 - inp.coverage)
  spec_cost_formula treated
      (inp.hosp_proportions.getD i 0) (inp.outpatient_proportions.getD i 0)
      (inp.hosp_reduction_effs.getD i 0) (inp.malrti_reduction_effs.getD i 0)
      (inp.inpatient_costs.getD i 0) (inp.inpatient_pcr_costs.getD i 0)
      (inp.inpatient_transport_costs.getD i 0) (inp.inpatient_caregiver_salary_losses.getD i 0)
      (inp.outpatient_ec_costs.getD i 0) (inp.outpatient_pc_costs.getD i 0)
      (inp.outpatient_transport_costs.getD i 0) (inp.outpatient_caregiver_salary_losses.getD i 0)
    + spec_cost_formula untreated
      (inp.hosp_proportions.getD i 0) (inp.outpatient_proportions.getD i 0)
      0 0
      (inp.inpatient_costs.getD i 0) (inp.inpatient_pcr_costs.getD i 0)
      (inp.inpatient_transport_costs.getD i 0) (inp.inpatient_caregiver_salary_losses.getD i 0)
      (inp.outpatient_ec_costs.getD i 0) (inp.outpatient_pc_costs.getD i 0)
      (inp.outpatient_transport_costs.getD i 0) (inp.outpatient_caregiver_salary_losses.getD i 0)

/-- Modelled from the spec: the DALY contribution of subgroup i, summing the treated split
(with the effectiveness of subgroup i) and the untreated split (effectiveness 0). -/
def spec_subgroup_dalys (inp : ScenarioInputs α) (i : Nat) : α :=
  let treated := inp.cohort * inp.population_proportions.getD i 0 * inp.coverage
  let untreated := inp.cohort * inp.population_proportions.getD i 0 * (1 - inp.coverage)
  spec_daly_formula treated
      (inp.hosp_proportions.getD i 0) (inp.outpatient_proportions.getD i 0)
      (inp.hosp_reduction_effs.getD i 0) (inp.malrti_reduction_effs.getD i 0)
      inp.severe_case_dw inp.moderate_case_dw
      inp.severe_illness_duration_days inp.moderate_illness_duration_days
      (inp.lethality_proportions.getD i 0) inp.days_in_year inp.discounted_yll
    + spec_daly_formula untreated
      (inp.hosp_proportions.getD i 0) (inp.outpatient_proportions.getD i 0)
      0 0
      inp.severe_case_dw inp.moderate_case_dw
      inp.severe_illness_duration_days inp.moderate_illness_duration_days
      (inp.lethality_proportions.getD i 0) inp.days_in_year inp.discounted_yll

/-- Modelled from the spec: total cost, the sum of subgroup costs plus
cohort times coverage times intervention_dose_cost. -/
def spec_total_cost (inp : ScenarioInputs α) : α :=
  ((List.range inp.population_proportions.length).map (spec_subgroup_cost inp)).sum
    + inp.cohort * inp.coverage * inp.intervention_dose_cost

/-- Modelled from the spec: total DALYs, the sum of subgroup DALY contributions. -/
def spec_total_dalys (inp : ScenarioInputs α) : α :=
  ((List.range inp.population_proportions.length).map (spec_subgroup_dalys inp)).sum

/- Bridging lemmas between the embedded source code and the reference formulas. -/

theorem calculate_subgroup_dalys_ok (population hosp_proportion outpatient_proportion
    hosp_reduction_eff malrti_reduction_eff severe_case_dw moderate_case_dw
    severe_illness_duration_days moderate_illness_duration_days lethality
    days_in_year discounted_yll : α) (hdays : 0 < days_in_year) :
    calculate_subgroup_dalys population hosp_proportion outpatient_proportion
      hosp_reduction_eff malrti_reduction_eff severe_case_dw moderate_case_dw
      severe_illness_duration_days moderate_illness_duration_days lethality
      days_in_year discounted_yll
    = .ok (spec_daly_formula population hosp_proportion outpatient_proportion
      hosp_reduction_eff malrti_reduction_eff severe_case_dw moderate_case_dw
      severe_illness_duration_days moderate_illness_duration_days lethality
      days_in_year discounted_yll) := by
  simp only [calculate_subgroup_dalys, if_neg (not_le.mpr hdays), spec_daly_formula,
    compute_cases_with_eff, compute_death_cases, compute_cure_cases, Except.ok.injEq]

theorem scenarioStep_ok (inp : ScenarioInputs α) (hdays : 0 < inp.days_in_year)
    (acc : α × α) (i : Nat) :
    scenarioStep inp acc i
    = .ok (acc.1 + spec_subgroup_cost inp i, acc.2 + spec_subgroup_dalys inp i) := by
  simp only [scenarioStep, calculate_subgroup_dalys_ok _ _ _ _ _ _ _ _ _ _ _ _ hdays,
    Except.ok.injEq, Prod.mk.injEq]
  constructor
  · simp only [spec_subgroup_cost, spec_cost_formula, calculate_subgroup_cost,
      compute_cases_with_eff]
  · simp only [spec_subgroup_dalys, spec_daly_formula]

theorem scenarioStep_err (inp : ScenarioInputs α) (hdays : inp.days_in_year ≤ 0)
    (acc : α × α) (i : Nat) :
    scenarioStep inp acc i = .error days_in_year_msg := by
  simp only [scenarioStep, calculate_subgroup_dalys, if_pos hdays]

theorem scenarioLoop_ok (inp : ScenarioInputs α) (hdays : 0 < inp.days_in_year)
    (l : List Nat) : ∀ (a b : α),
    scenarioLoop inp l (a, b)
    = .ok (a + (l.map (spec_subgroup_cost inp)).sum,
           b + (l.map (spec_subgroup_dalys inp)).sum) := by
  induction l with
  | nil => intro a b; simp [scenarioLoop]
  | cons i rest ih =>
    intro a b
    simp only [scenarioLoop, scenarioStep_ok inp hdays, ih, List.map_cons, List.sum_cons]
    simp only [Except.ok.injEq, Prod.mk.injEq]
    constructor <;> ring

theorem scenarioLoop_err (inp : ScenarioInputs α) (hdays : inp.days_in_year ≤ 0)
    (i : Nat) (rest : List Nat) (acc : α × α) :
    scenarioLoop inp (i :: rest) acc = .error days_in_year_msg := by
  simp only [scenarioLoop, scenarioStep_err inp hdays]

/-- The shared refinement result: on valid inputs run_scenario returns exactly the
record given by the reference formulas of the specification. -/
theorem run_scenario_eq_spec (inp : ScenarioInputs α)
    (hlen : ∀ l ∈ seqLengths inp, l = inp.population_proportions.length)
    (hne : inp.population_proportions.length ≠ 0)
    (hsum : (999 / 1000 : α) ≤ inp.population_proportions.sum
            ∧ inp.population_proportions.sum ≤ (1001 / 1000 : α))
    (hdays : 0 < inp.days_in_year) :
    run_scenario inp = .ok ⟨spec_total_cost inp, spec_total_dalys inp⟩ := by
  rw [run_scenario]
  rw [if_neg (not_not_intro hlen), if_neg hne, if_neg (not_not_intro hsum)]
  rw [scenarioLoop_ok inp hdays]
  simp [spec_total_cost, spec_total_dalys]

/-- Linear interpolation distributes over list sums. -/
theorem list_sum_map_interp (l : List Nat) (f g : Nat → α) (c : α) :
    (l.map (fun i => g i + c * (f i - g i))).sum
    = (l.map g).sum + c * ((l.map f).sum - (l.map g).sum) := by
  induction l with
  | nil => simp
  | cons i rest ih =>
    simp only [List.map_cons, List.sum_cons, ih]
    ring

/-- The subgroup cost contribution is affine in coverage. -/
theorem spec_subgroup_cost_coverage (inp : ScenarioInputs α) (c : α) (i : Nat) :
    spec_subgroup_cost { inp with coverage := c } i
    = spec_subgroup_cost { inp with coverage := 0 } i
      + c * (spec_subgroup_cost { inp with coverage := 1 } i
             - spec_subgroup_cost { inp with coverage := 0 } i) := by
  simp only [spec_subgroup_cost, spec_cost_formula]
  ring

/-- The total cost returned for coverage c interpolates the totals at coverage 0 and 1. -/
theorem spec_total_cost_coverage (inp : ScenarioInputs α) (c : α) :
    spec_total_cost { inp with coverage := c }
    = spec_total_cost { inp with coverage := 0 }
      + c * (spec_total_cost { inp with coverage := 1 }
             - spec_total_cost { inp with coverage := 0 }) := by
  simp only [spec_total_cost]
  rw [List.map_congr_left (fun i _ => spec_subgroup_cost_coverage inp c i),
    list_sum_map_interp]
  ring

/-- C1: on valid inputs (14 equal-length nonempty subgroup sequences, population
proportions summing to 1 within 0.001, positive days_in_year), run_scenario returns
exactly the record given by the reference formulas of the specification: per subgroup,
the treated and untreated splits evaluated with the stated cost and DALY formulas, and
the final cost adding cohort times coverage times intervention_dose_cost. -/
theorem C1_run_scenario_matches_reference (inp : ScenarioInputs α)
    (hlen : ∀ l ∈ seqLengths inp, l = inp.population_proportions.length)
    (hne : inp.population_proportions.length ≠ 0)
    (hsum : (999 / 1000 : α) ≤ inp.population_proportions.sum
            ∧ inp.population_proportions.sum ≤ (1001 / 1000 : α))
    (hdays : 0 < inp.days_in_year) :
    run_scenario inp = .ok ⟨spec_total_cost inp, spec_total_dalys inp⟩ :=
  run_scenario_eq_spec inp hlen hne hsum hdays

/-- A concrete valid one-subgroup scenario (the end-to-end example of the specification). -/
def C1_example : ScenarioInputs ℚ :=
  { cohort := 1000, coverage := 4/5, intervention_dose_cost := 50,
    severe_case_dw := 1/5, moderate_case_dw := 1/10,
    severe_illness_duration_days := 7, moderate_illness_duration_days := 7,
    days_in_year := 36525/100, discounted_yll := 5,
    population_proportions := [1], hosp_proportions := [1/50],
    outpatient_proportions := [1/10], lethality_proportions := [1/100],
    inpatient_costs := [10], inpatient_pcr_costs := [10],
    outpatient_ec_costs := [10], outpatient_pc_costs := [10],
    inpatient_transport_costs := [10], inpatient_caregiver_salary_losses := [10],
    outpatient_transport_costs := [10], outpatient_caregiver_salary_losses := [10],
    hosp_reduction_effs := [0], malrti_reduction_effs := [0] }

/-- Witness for C1 at the concrete example. -/
theorem C1_witness :
    run_scenario C1_example = .ok ⟨spec_total_cost C1_example, spec_total_dalys C1_example⟩ :=
  C1_run_scenario_matches_reference C1_example (by decide) (by decide)
    (by norm_num [C1_example]) (by norm_num [C1_example])

/-- C8: with all 14 per-subgroup sequences empty, run_scenario returns exactly
cost equal to cohort times coverage times intervention_dose_cost and zero DALYs,
for every value of the scalar parameters, without any error. -/
theorem C8_empty_subgroups_dose_cost_only
    (cohort coverage intervention_dose_cost severe_case_dw moderate_case_dw
     severe_illness_duration_days moderate_illness_duration_days days_in_year
     discounted_yll : α) :
    run_scenario (⟨cohort, coverage, intervention_dose_cost, severe_case_dw,
      moderate_case_dw, severe_illness_duration_days, moderate_illness_duration_days,
      days_in_year, discounted_yll,
      [], [], [], [], [], [], [], [], [], [], [], [], [], []⟩ : ScenarioInputs α)
    = .ok ⟨cohort * coverage * intervention_dose_cost, 0⟩ := rfl

/-- C4 (amended): when at least one subgroup is present, a call with nonpositive
days_in_year fails with an error instead of returning a result. -/
theorem C4_nonpositive_days_errors (inp : ScenarioInputs α)
    (hne : inp.population_proportions ≠ [])
    (hdays : inp.days_in_year ≤ 0) :
    ∃ e, run_scenario inp = .error e := by
  rw [run_scenario]
  by_cases h1 : ∀ l ∈ seqLengths inp, l = inp.population_proportions.length
  · rw [if_neg (not_not_intro h1)]
    have hn : inp.population_proportions.length ≠ 0 := by
      simpa [List.length_eq_zero] using hne
    rw [if_neg hn]
    by_cases h2 : (999 / 1000 : α) ≤ inp.population_proportions.sum
        ∧ inp.population_proportions.sum ≤ (1001 / 1000 : α)
    · rw [if_neg (not_not_intro h2)]
      obtain ⟨m, hm⟩ : ∃ m, inp.population_proportions.length = m + 1 :=
        ⟨_, (Nat.succ_pred_eq_of_pos (Nat.pos_of_ne_zero hn)).symm⟩
      rw [hm, List.range_succ_eq_map, scenarioLoop_err inp hdays]
      exact ⟨days_in_year_msg, rfl⟩
    · rw [if_pos h2]
      exact ⟨proportion_msg, rfl⟩
  · rw [if_pos h1]
    exact ⟨length_msg, rfl⟩

/-- A concrete zero-subgroup scenario with negative days_in_year. -/
def C4_empty_example : ScenarioInputs ℚ :=
  ⟨2, 1/2, 100, 1, 1, 1, 1, -1, 1,
   [], [], [], [], [], [], [], [], [], [], [], [], [], []⟩

/-- Counterexample to C4 as stated: with zero subgroups and days_in_year equal to -1,
run_scenario returns a result instead of failing. -/
theorem C4_counterexample :
    C4_empty_example.days_in_year ≤ 0
    ∧ run_scenario C4_empty_example = .ok ⟨100, 0⟩ := by
  constructor
  · norm_num [C4_empty_example]
  · rw [run_scenario, if_neg (not_not_intro (by decide)), if_pos (by decide)]
    norm_num [C4_empty_example]

/-- A concrete one-subgroup scenario with negative days_in_year. -/
def C4_example : ScenarioInputs ℚ :=
  { C1_example with days_in_year := -1 }

/-- Witness for the amended C4 at the concrete example. -/
theorem C4_witness : ∃ e, run_scenario C4_example = .error e :=
  C4_nonpositive_days_errors C4_example (by decide) (by norm_num [C4_example, C1_example])

/-- C5: for fixed valid inputs, the cost returned by run_scenario is affine in coverage:
the result at coverage c is the linear interpolation of the results at coverage 0 and 1. -/
theorem C5_cost_affine_in_coverage (inp : ScenarioInputs α) (c : α)
    (hlen : ∀ l ∈ seqLengths inp, l = inp.population_proportions.length)
    (hne : inp.population_proportions.length ≠ 0)
    (hsum : (999 / 1000 : α) ≤ inp.population_proportions.sum
            ∧ inp.population_proportions.sum ≤ (1001 / 1000 : α))
    (hdays : 0 < inp.days_in_year) :
    ∃ rc r0 r1 : ScenarioResult α,
      run_scenario { inp with coverage := c } = .ok rc
      ∧ run_scenario { inp with coverage := 0 } = .ok r0
      ∧ run_scenario { inp with coverage := 1 } = .ok r1
      ∧ rc.cost = r0.cost + c * (r1.cost - r0.cost) := by
  have hl : ∀ d : α, ∀ l ∈ seqLengths { inp with coverage := d },
      l = ({ inp with coverage := d } : ScenarioInputs α).population_proportions.length := by
    intro d
    simpa [seqLengths] using hlen
  exact ⟨_, _, _,
    run_scenario_eq_spec _ (hl c) hne hsum hdays,
    run_scenario_eq_spec _ (hl 0) hne hsum hdays,
    run_scenario_eq_spec _ (hl 1) hne hsum hdays,
    spec_total_cost_coverage inp c⟩

/-- Witness for C5 at the concrete example with coverage one half. -/
theorem C5_witness :
    ∃ rc r0 r1 : ScenarioResult ℚ,
      run_scenario { C1_example with coverage := (1:ℚ)/2 } = .ok rc
      ∧ run_scenario { C1_example with coverage := 0 } = .ok r0
      ∧ run_scenario { C1_example with coverage := 1 } = .ok r1
      ∧ rc.cost = r0.cost + (1:ℚ)/2 * (r1.cost - r0.cost) :=
  C5_cost_affine_in_coverage C1_example ((1:ℚ)/2)
    (by decide) (by decide) (by norm_num [C1_example]) (by norm_num [C1_example])

/-- C9: run_scenario rejects mismatched sequence lengths with the length error; for
nonempty equal-length sequences it rejects a population-proportion sum outside the
tolerance interval with the proportion error, and never raises the proportion error
when the sum is inside the tolerance. -/
theorem C9_validation (inp : ScenarioInputs α) :
    (¬ (∀ l ∈ seqLengths inp, l = inp.population_proportions.length) →
        run_scenario inp = .error length_msg)
    ∧ ((∀ l ∈ seqLengths inp, l = inp.population_proportions.length) →
        inp.population_proportions ≠ [] →
        ((¬ ((999 / 1000 : α) ≤ inp.population_proportions.sum
              ∧ inp.population_proportions.sum ≤ (1001 / 1000 : α)) →
            run_scenario inp = .error proportion_msg)
         ∧ (((999 / 1000 : α) ≤ inp.population_proportions.sum
              ∧ inp.population_proportions.sum ≤ (1001 / 1000 : α)) →
            run_scenario inp ≠ .error proportion_msg))) := by
  refine ⟨fun h1 => ?_, fun h1 hne => ⟨fun h2 => ?_, fun h2 => ?_⟩⟩
  · rw [run_scenario, if_pos h1]
  · have hn : inp.population_proportions.length ≠ 0 := by
      simpa [List.length_eq_zero] using hne
    rw [run_scenario, if_neg (not_not_intro h1), if_neg hn, if_pos h2]
  · have hn : inp.population_proportions.length ≠ 0 := by
      simpa [List.length_eq_zero] using hne
    rw [run_scenario, if_neg (not_not_intro h1), if_neg hn, if_neg (not_not_intro h2)]
    rcases le_or_lt inp.days_in_year 0 with hd | hd
    · obtain ⟨m, hm⟩ : ∃ m, inp.population_proportions.length = m + 1 :=
        ⟨_, (Nat.succ_pred_eq_of_pos (Nat.pos_of_ne_zero hn)).symm⟩
      rw [hm, List.range_succ_eq_map, scenarioLoop_err inp hd]
      intro hcontra
      exact absurd (Except.error.inj hcontra) (by decide)
    · rw [scenarioLoop_ok inp hd]
      exact fun hcontra => Except.noConfusion hcontra

/-- A scenario whose hospitalization-proportion sequence is shorter than the others. -/
def C9_mismatched_example : ScenarioInputs ℚ :=
  { C1_example with hosp_proportions := [] }

/-- A scenario whose population proportions sum to 1.002. -/
def C9_out_of_tolerance_example : ScenarioInputs ℚ :=
  { C1_example with population_proportions := [1002/1000] }

/-- A scenario whose population proportions sum to 1.0009. -/
def C9_in_tolerance_example : ScenarioInputs ℚ :=
  { C1_example with population_proportions := [10009/10000] }

/-- Witness for C9 at the three concrete scenarios. -/
theorem C9_witness :
    run_scenario C9_mismatched_example = .error length_msg
    ∧ run_scenario C9_out_of_tolerance_example = .error proportion_msg
    ∧ run_scenario C9_in_tolerance_example ≠ .error proportion_msg :=
  ⟨(C9_validation C9_mismatched_example).1 (by decide),
   ((C9_validation C9_out_of_tolerance_example).2 (by decide) (by decide)).1
     (by norm_num [C9_out_of_tolerance_example, C1_example]),
   ((C9_validation C9_in_tolerance_example).2 (by decide) (by decide)).2
     (by norm_num [C9_in_tolerance_example, C1_example])⟩

/- ceac.py: the cost-effectiveness acceptability curve. -/

/-- ceac.py line 27: the CEAC probability at threshold t, the fraction of PSA samples
(incremental-cost, incremental-dalys) with cost at most t times dalys. -/
def ceac_probability (samples : List (α × α)) (t : α) : α :=
  ((samples.countP (fun p => decide (p.1 ≤ t * p.2)) : ℕ) : α)
    / ((samples.length : ℕ) : α)

/-- Counterexample to C3 as stated: over arbitrary sample sets the CEAC fraction is not
monotone in the threshold; with the single sample (-10, -1) the fraction at threshold 20
is strictly below the fraction at threshold 0. -/
theorem C3_counterexample :
    (0:ℚ) ≤ 0 ∧ (0:ℚ) ≤ 20
    ∧ ceac_probability [((-10 : ℚ), -1)] 20 < ceac_probability [((-10 : ℚ), -1)] 0 := by
  refine ⟨le_refl 0, by norm_num, ?_⟩
  norm_num [ceac_probability, List.countP_cons, List.countP_nil]

/-- C3 (amended): for sample sets whose incremental-dalys entries are all nonnegative,
the CEAC probability is monotonically non-decreasing in the threshold. -/
theorem C3_ceac_monotone (samples : List (α × α)) (t1 t2 : α)
    (h0 : 0 ≤ t1) (h12 : t1 ≤ t2) (hd : ∀ p ∈ samples, 0 ≤ p.2) :
    ceac_probability samples t1 ≤ ceac_probability samples t2 := by
  unfold ceac_probability
  rcases Nat.eq_zero_or_pos samples.length with hlen | hlen
  · rw [List.length_eq_zero] at hlen
    subst hlen
    simp
  · have hcount : samples.countP (fun p => decide (p.1 ≤ t1 * p.2))
        ≤ samples.countP (fun p => decide (p.1 ≤ t2 * p.2)) := by
      apply List.countP_mono_left
      intro p hp hle
      simp only [decide_eq_true_eq] at hle ⊢
      exact hle.trans (mul_le_mul_of_nonneg_right h12 (hd p hp))
    have hlen' : (0:α) < ((samples.length : ℕ) : α) := by exact_mod_cast hlen
    have hcast : ((samples.countP (fun p => decide (p.1 ≤ t1 * p.2)) : ℕ) : α)
        ≤ ((samples.countP (fun p => decide (p.1 ≤ t2 * p.2)) : ℕ) : α) := by
      exact_mod_cast hcount
    exact div_le_div_of_nonneg_right hcast hlen'.le

/-- Witness for the amended C3 on a one-sample set with nonnegative dalys. -/
theorem C3_witness :
    ceac_probability [((5:ℚ), (1:ℚ))] 1 ≤ ceac_probability [((5:ℚ), (1:ℚ))] 2 :=
  C3_ceac_monotone [((5:ℚ), (1:ℚ))] 1 2 (by norm_num) (by norm_num) (by norm_num)

/- psa.py: the per-iteration construction of the four run_scenario argument records. -/

/-- util.constants.DAYS_IN_YEAR, the float 365.25. -/
def DAYS_IN_YEAR : α := 36525 / 100

/-- The fixed data psa.main extracts once before the Monte Carlo loop
(point estimates and unsampled per-subgroup sequences). -/
structure PsaBaselineData (α : Type) where
  cohort : α
  nirsevimab_dose_cost : α
  vaccine_coverage : α
  vaccine_dose_cost : α
  severe_illness_duration_days : α
  moderate_illness_duration_days : α
  discounted_yll : α
  population_proportions : List α
  lethality_proportions : List α
  inpatient_pcr_costs : List α
  inpatient_transport_costs : List α
  outpatient_transport_costs : List α
  affected_caregivers_proportions : List α
  nirsevimab_hosp_reduction_effs : List α
  nirsevimab_malrti_reduction_effs : List α
  vaccine_hosp_reduction_effs : List α
  vaccine_malrti_reduction_effs : List α
  n_sub : Nat
  deriving DecidableEq

/-- The random draws of one Monte Carlo iteration of psa.main. -/
structure PsaIterationDraws (α : Type) where
  severe_case_dw : α
  moderate_case_dw : α
  rand_hosp_proportions : List α
  rand_outpatient_proportions : List α
  rand_inpatient_costs : List α
  rand_outpatient_pc_costs : List α
  rand_outpatient_ec_costs : List α
  caregiver_daily_salary_draws : List α
  rand_nirsevimab_hosp_reduction_effs : List α
  rand_nirsevimab_malrti_reduction_effs : List α
  rand_nirsevimab_coverage : α
  deriving DecidableEq

/-- psa.main: per-iteration inpatient caregiver salary losses derived from the
sampled daily salaries. -/
def rand_inpatient_caregiver_salary_losses (b : PsaBaselineData α)
    (d : PsaIterationDraws α) : List α :=
  (List.range b.n_sub).map fun i =>
    calculate_salary_loss b.severe_illness_duration_days
      (b.affected_caregivers_proportions.getD i 0)
      (d.caregiver_daily_salary_draws.getD i 0)

/-- psa.main: per-iteration outpatient caregiver salary losses derived from the
sampled daily salaries. -/
def rand_outpatient_caregiver_salary_losses (b : PsaBaselineData α)
    (d : PsaIterationDraws α) : List α :=
  (List.range b.n_sub).map fun i =>
    calculate_salary_loss b.moderate_illness_duration_days
      (b.affected_caregivers_proportions.getD i 0)
      (d.caregiver_daily_salary_draws.getD i 0)

/-- psa.main lines 234-258: arguments of the societal-perspective nirsevimab call. -/
def societal_nirsevimab_inputs (b : PsaBaselineData α) (d : PsaIterationDraws α) :
    ScenarioInputs α :=
  { cohort := b.cohort
    coverage := d.rand_nirsevimab_coverage
    intervention_dose_cost := b.nirsevimab_dose_cost
    severe_case_dw := d.severe_case_dw
    moderate_case_dw := d.moderate_case_dw
    severe_illness_duration_days := b.severe_illness_duration_days
    moderate_illness_duration_days := b.moderate_illness_duration_days
    days_in_year := DAYS_IN_YEAR
    discounted_yll := b.discounted_yll
    population_proportions := b.population_proportions
    hosp_proportions := d.rand_hosp_proportions
    outpatient_proportions := d.rand_outpatient_proportions
    lethality_proportions := b.lethality_proportions
    inpatient_costs := d.rand_inpatient_costs
    inpatient_pcr_costs := b.inpatient_pcr_costs
    outpatient_ec_costs := d.rand_outpatient_ec_costs
    outpatient_pc_costs := d.rand_outpatient_pc_costs
    inpatient_transport_costs := b.inpatient_transport_costs
    inpatient_caregiver_salary_losses := rand_inpatient_caregiver_salary_losses b d
    outpatient_transport_costs := b.outpatient_transport_costs
    outpatient_caregiver_salary_losses := rand_outpatient_caregiver_salary_losses b d
    hosp_reduction_effs := d.rand_nirsevimab_hosp_reduction_effs
    malrti_reduction_effs := d.rand_nirsevimab_malrti_reduction_effs }

/-- psa.main lines 259-283: arguments of the societal-perspective vaccine call. -/
def societal_vaccine_inputs (b : PsaBaselineData α) (d : PsaIterationDraws α) :
    ScenarioInputs α :=
  { societal_nirsevimab_inputs b d with
    coverage := b.vaccine_coverage
    intervention_dose_cost := b.vaccine_dose_cost
    hosp_reduction_effs := b.vaccine_hosp_reduction_effs
    malrti_reduction_effs := b.vaccine_malrti_reduction_effs }

/-- psa.main lines 287-311: arguments of the public-perspective nirsevimab call
(salary losses zeroed; note the effectiveness lists used there are the baseline
point estimates, not the sampled draws). -/
def public_nirsevimab_inputs (b : PsaBaselineData α) (d : PsaIterationDraws α) :
    ScenarioInputs α :=
  { societal_nirsevimab_inputs b d with
    inpatient_caregiver_salary_losses := List.replicate b.n_sub 0
    outpatient_caregiver_salary_losses := List.replicate b.n_sub 0
    hosp_reduction_effs := b.nirsevimab_hosp_reduction_effs
    malrti_reduction_effs := b.nirsevimab_malrti_reduction_effs }

/-- psa.main lines 312-336: arguments of the public-perspective vaccine call
(salary losses zeroed). -/
def public_vaccine_inputs (b : PsaBaselineData α) (d : PsaIterationDraws α) :
    ScenarioInputs α :=
  { societal_vaccine_inputs b d with
    inpatient_caregiver_salary_losses := List.replicate b.n_sub 0
    outpatient_caregiver_salary_losses := List.replicate b.n_sub 0 }

/-- Replacing the two caregiver-salary-loss sequences of a scenario input record by
all-zero sequences of the same length. -/
def with_zero_salary_losses (inp : ScenarioInputs α) : ScenarioInputs α :=
  { inp with
    inpatient_caregiver_salary_losses :=
      List.replicate inp.inpatient_caregiver_salary_losses.length 0
    outpatient_caregiver_salary_losses :=
      List.replicate inp.outpatient_caregiver_salary_losses.length 0 }

/-- For the vaccine intervention the public-perspective call does receive the societal
arguments with only the salary-loss sequences zeroed. -/
theorem psa_public_vaccine_zero_salary (b : PsaBaselineData α) (d : PsaIterationDraws α) :
    public_vaccine_inputs b d = with_zero_salary_losses (societal_vaccine_inputs b d) := by
  simp [public_vaccine_inputs, with_zero_salary_losses, societal_vaccine_inputs,
    societal_nirsevimab_inputs, rand_inpatient_caregiver_salary_losses,
    rand_outpatient_caregiver_salary_losses]

/-- A concrete baseline with one subgroup and baseline nirsevimab effectiveness 0. -/
def C2_baseline : PsaBaselineData ℚ :=
  { cohort := 1000, nirsevimab_dose_cost := 50, vaccine_coverage := 1,
    vaccine_dose_cost := 20, severe_illness_duration_days := 7,
    moderate_illness_duration_days := 7, discounted_yll := 5,
    population_proportions := [1], lethality_proportions := [0],
    inpatient_pcr_costs := [10], inpatient_transport_costs := [10],
    outpatient_transport_costs := [10], affected_caregivers_proportions := [1],
    nirsevimab_hosp_reduction_effs := [0], nirsevimab_malrti_reduction_effs := [0],
    vaccine_hosp_reduction_effs := [0], vaccine_malrti_reduction_effs := [0],
    n_sub := 1 }

/-- A concrete iteration draw whose sampled nirsevimab effectiveness is 1,
different from the baseline effectiveness 0. -/
def C2_draws : PsaIterationDraws ℚ :=
  { severe_case_dw := 1, moderate_case_dw := 1,
    rand_hosp_proportions := [1], rand_outpatient_proportions := [1],
    rand_inpatient_costs := [10], rand_outpatient_pc_costs := [10],
    rand_outpatient_ec_costs := [10], caregiver_daily_salary_draws := [3],
    rand_nirsevimab_hosp_reduction_effs := [1],
    rand_nirsevimab_malrti_reduction_effs := [1],
    rand_nirsevimab_coverage := 1 }

/-- C2 is violated by the code: at a concrete iteration whose sampled nirsevimab
effectiveness differs from the baseline point estimate, the public-perspective
nirsevimab call does not receive the societal arguments with only the salary losses
zeroed, because its effectiveness sequences are the unsampled baseline lists. -/
theorem C2_public_nirsevimab_args_differ :
    (public_nirsevimab_inputs C2_baseline C2_draws).hosp_reduction_effs
      ≠ (societal_nirsevimab_inputs C2_baseline C2_draws).hosp_reduction_effs
    ∧ public_nirsevimab_inputs C2_baseline C2_draws
      ≠ with_zero_salary_losses (societal_nirsevimab_inputs C2_baseline C2_draws) := by
  have heff : (public_nirsevimab_inputs C2_baseline C2_draws).hosp_reduction_effs
      ≠ (societal_nirsevimab_inputs C2_baseline C2_draws).hosp_reduction_effs := by
    simp [public_nirsevimab_inputs, societal_nirsevimab_inputs, C2_baseline, C2_draws]
  refine ⟨heff, fun h => heff ?_⟩
  have := congrArg ScenarioInputs.hosp_reduction_effs h
  simpa [with_zero_salary_losses] using this

/- stat_tools.fit_distributions.fit_lognormal, embedded over the reals
(the idealisation of float arithmetic as exact real arithmetic). -/

/-- stat_tools.fit_distributions.fit_lognormal: closed-form lognormal fit from a mean
and 95 percent confidence bounds, with the one-step mean correction on mu. -/
noncomputable def fit_lognormal (mean_target lower_target upper_target : ℝ) :
    Except String (ℝ × ℝ) :=
  if lower_target ≤ 0 ∨ upper_target ≤ 0 then .error "Bounds must be > 0 for lognormal"
  else if upper_target ≤ lower_target then
    .error "upper_target must be greater than lower_target"
  else
    let z : ℝ := 196 / 100
    let log_l := Real.log lower_target
    let log_u := Real.log upper_target
    let sigma := (log_u - log_l) / (2 * z)
    let mu := (log_l + log_u) / 2
    let implied_mean := Real.exp (mu + sigma ^ 2 / 2)
    let mu2 := if 0 < implied_mean then mu + Real.log (mean_target / implied_mean) else mu
    .ok (mu2, sigma)

/-- C6: for positive mean and bounds 0 < lower < upper, fit_lognormal succeeds,
returns sigma equal to (log upper - log lower) divided by twice 1.96, and after the
single corrective step the implied mean exp(mu + sigma squared over 2) equals the
target mean exactly in real arithmetic. -/
theorem C6_fit_lognormal_mean_exact (mean_target lower_target upper_target : ℝ)
    (hm : 0 < mean_target) (hl : 0 < lower_target) (hlu : lower_target < upper_target) :
    ∃ mu sigma : ℝ,
      fit_lognormal mean_target lower_target upper_target = .ok (mu, sigma)
      ∧ sigma = (Real.log upper_target - Real.log lower_target) / (2 * (196 / 100))
      ∧ Real.exp (mu + sigma ^ 2 / 2) = mean_target := by
  have hu : 0 < upper_target := hl.trans hlu
  have hb : ¬ (lower_target ≤ 0 ∨ upper_target ≤ 0) := by
    push_neg
    exact ⟨hl, hu⟩
  rw [fit_lognormal, if_neg hb, if_neg (not_le.mpr hlu)]
  dsimp only
  set sigma := (Real.log upper_target - Real.log lower_target) / (2 * (196 / 100 : ℝ)) with hsig
  set mu0 := (Real.log lower_target + Real.log upper_target) / 2 with hmu0
  have hexp : (0:ℝ) < Real.exp (mu0 + sigma ^ 2 / 2) := Real.exp_pos _
  rw [if_pos hexp]
  refine ⟨_, _, rfl, rfl, ?_⟩
  have hratio : 0 < mean_target / Real.exp (mu0 + sigma ^ 2 / 2) := div_pos hm hexp
  have : mu0 + Real.log (mean_target / Real.exp (mu0 + sigma ^ 2 / 2)) + sigma ^ 2 / 2
      = (mu0 + sigma ^ 2 / 2) + Real.log (mean_target / Real.exp (mu0 + sigma ^ 2 / 2)) := by
    ring
  rw [this, Real.exp_add, Real.exp_log hratio, mul_comm,
    div_mul_cancel₀ _ (Real.exp_ne_zero _)]

/-- Witness for C6 at the example of the specification, mean 10 and bounds 5 and 20. -/
theorem C6_witness :
    ∃ mu sigma : ℝ,
      fit_lognormal 10 5 20 = .ok (mu, sigma)
      ∧ sigma = (Real.log 20 - Real.log 5) / (2 * (196 / 100))
      ∧ Real.exp (mu + sigma ^ 2 / 2) = 10 :=
  C6_fit_lognormal_mean_exact 10 5 20 (by norm_num) (by norm_num) (by norm_num)

/- A model of IEEE-754 special values as produced by numpy float64 operations:
a value is either finite (idealised as an exact real), an infinity, or NaN.
Rounding plays no role in the claims below, only the special-value algebra. -/

/-- A numpy float64 value: finite (idealised as a real), positive or negative
infinity, or NaN. -/
inductive PyFloat where
  | fin (x : ℝ)
  | pinf
  | ninf
  | nan

/-- Whether a float value is finite. -/
def PyFloat.isFinite : PyFloat → Bool
  | .fin _ => true
  | _ => false

/-- numpy log: log of a positive finite value is finite, log of zero is negative
infinity, log of a negative value is NaN. -/
noncomputable def np_log : PyFloat → PyFloat
  | .fin x => if 0 < x then .fin (Real.log x) else if x = 0 then .ninf else .nan
  | .pinf => .pinf
  | .ninf => .nan
  | .nan => .nan

/-- IEEE-754 subtraction on special values. -/
noncomputable def PyFloat.sub : PyFloat → PyFloat → PyFloat
  | .nan, _ => .nan
  | _, .nan => .nan
  | .pinf, .pinf => .nan
  | .pinf, _ => .pinf
  | .ninf, .ninf => .nan
  | .ninf, _ => .ninf
  | .fin _, .pinf => .ninf
  | .fin _, .ninf => .pinf
  | .fin x, .fin y => .fin (x - y)

/-- IEEE-754 division on special values: a nonzero finite value divided by zero is a
signed infinity, zero divided by zero is NaN (real zero stands for float +0.0). -/
noncomputable def PyFloat.div : PyFloat → PyFloat → PyFloat
  | .nan, _ => .nan
  | _, .nan => .nan
  | .pinf, .pinf => .nan
  | .pinf, .ninf => .nan
  | .ninf, .pinf => .nan
  | .ninf, .ninf => .nan
  | .pinf, .fin y => if y < 0 then .ninf else .pinf
  | .ninf, .fin y => if y < 0 then .pinf else .ninf
  | .fin _, .pinf => .fin 0
  | .fin _, .ninf => .fin 0
  | .fin x, .fin y =>
    if y = 0 then (if 0 < x then .pinf else if x < 0 then .ninf else .nan)
    else .fin (x / y)

/-- univariate.run_univariate lines 163-165: the ICER of nirsevimab versus vaccine,
computed on the numpy float64 outputs of the two run_scenario calls. -/
noncomputable def univariate_icer (nirsevimab_result vaccine_result : ScenarioResult ℝ) :
    PyFloat :=
  PyFloat.div (.fin (nirsevimab_result.cost - vaccine_result.cost))
    (.fin (vaccine_result.dalys - nirsevimab_result.dalys))

/-- C7: when the two interventions have equal total DALYs, the univariate ICER
division completes (it is a total operation on numpy float64 values, not an
exception) and yields a non-finite value: positive or negative infinity, or NaN. -/
theorem C7_icer_zero_denominator_nonfinite
    (nirsevimab_result vaccine_result : ScenarioResult ℝ)
    (h : vaccine_result.dalys = nirsevimab_result.dalys) :
    (univariate_icer nirsevimab_result vaccine_result).isFinite = false
    ∧ (univariate_icer nirsevimab_result vaccine_result = .pinf
       ∨ univariate_icer nirsevimab_result vaccine_result = .ninf
       ∨ univariate_icer nirsevimab_result vaccine_result = .nan) := by
  have hz : vaccine_result.dalys - nirsevimab_result.dalys = 0 := by
    rw [h, sub_self]
  rw [univariate_icer, hz]
  rcases lt_trichotomy (nirsevimab_result.cost - vaccine_result.cost) 0 with hc | hc | hc
  · simp [PyFloat.div, PyFloat.isFinite, not_lt.mpr hc.le, hc]
  · simp [PyFloat.div, PyFloat.isFinite, hc]
  · simp [PyFloat.div, PyFloat.isFinite, hc, not_lt.mpr hc.le]

/-- Witness for C7 at concrete scenario results with equal DALYs. -/
theorem C7_witness :
    (univariate_icer ⟨100, 5⟩ ⟨40, 5⟩).isFinite = false
    ∧ (univariate_icer ⟨100, 5⟩ ⟨40, 5⟩ = .pinf
       ∨ univariate_icer ⟨100, 5⟩ ⟨40, 5⟩ = .ninf
       ∨ univariate_icer ⟨100, 5⟩ ⟨40, 5⟩ = .nan) :=
  C7_icer_zero_denominator_nonfinite ⟨100, 5⟩ ⟨40, 5⟩ rfl

/-- stat_tools.fit_distributions.fit_lognormal_briggs: lognormal fit treating the
central value as the median and the bounds as central times (1 plus or minus
variation), with numpy log applied to the bounds. -/
noncomputable def fit_lognormal_briggs (central_value variation : ℝ) :
    Except String (PyFloat × PyFloat) :=
  if central_value ≤ 0 then .error "central_value must be > 0."
  else if variation ≤ 0 then .error "variation must be > 0."
  else
    let lower_bound := central_value * (1 - variation)
    let upper_bound := central_value * (1 + variation)
    let mu := np_log (.fin central_value)
    let sigma := PyFloat.div
      (PyFloat.sub (np_log (.fin upper_bound)) (np_log (.fin lower_bound)))
      (.fin (2 * (196 / 100)))
    .ok (mu, sigma)

/-- C10: for positive central value and variation at least 1, fit_lognormal_briggs
does not fail (its guards reject only nonpositive central value or variation); the
lower bound central times (1 minus variation) is nonpositive, so the returned sigma is
non-finite: NaN when variation exceeds 1, positive infinity when variation equals 1. -/
theorem C10_briggs_nonfinite_sigma (central_value variation : ℝ)
    (hc : 0 < central_value) (hv : 1 ≤ variation) :
    ∃ mu sigma : PyFloat,
      fit_lognormal_briggs central_value variation = .ok (mu, sigma)
      ∧ sigma.isFinite = false
      ∧ (1 < variation → sigma = .nan)
      ∧ (variation = 1 → sigma = .pinf) := by
  have hv0 : (0:ℝ) < variation := lt_of_lt_of_le one_pos hv
  rw [fit_lognormal_briggs, if_neg (not_le.mpr hc), if_neg (not_le.mpr hv0)]
  have hup : 0 < central_value * (1 + variation) :=
    mul_pos hc (by linarith)
  rcases eq_or_lt_of_le hv with hv1 | hv1
  · have hlow : central_value * (1 - variation) = 0 := by
      rw [← hv1]
      ring
    refine ⟨_, _, rfl, ?_, ?_, ?_⟩
    · simp [np_log, hlow, if_pos hup, PyFloat.sub, PyFloat.div, PyFloat.isFinite,
        show ¬ (2 * (196 / 100 : ℝ)) < 0 by norm_num]
    · intro hcontra
      rw [← hv1] at hcontra
      exact absurd hcontra (lt_irrefl 1)
    · intro _
      simp [np_log, hlow, if_pos hup, PyFloat.sub, PyFloat.div,
        show ¬ (2 * (196 / 100 : ℝ)) < 0 by norm_num]
  · have hlow : central_value * (1 - variation) < 0 :=
      mul_neg_of_pos_of_neg hc (by linarith)
    refine ⟨_, _, rfl, ?_, ?_, ?_⟩
    · simp [np_log, if_pos hup, not_lt.mpr hlow.le, hlow.ne, PyFloat.sub, PyFloat.div,
        PyFloat.isFinite]
    · intro _
      simp [np_log, if_pos hup, not_lt.mpr hlow.le, hlow.ne, PyFloat.sub, PyFloat.div]
    · intro hcontra
      rw [hcontra] at hv1
      exact absurd hv1 (lt_irrefl 1)

/-- Witness for C10 at central value 1 and variation 2. -/
theorem C10_witness :
    ∃ mu sigma : PyFloat,
      fit_lognormal_briggs 1 2 = .ok (mu, sigma)
      ∧ sigma.isFinite = false
      ∧ ((1:ℝ) < 2 → sigma = .nan)
      ∧ ((2:ℝ) = 1 → sigma = .pinf) :=
  C10_briggs_nonfinite_sigma 1 2 (by norm_num) (by norm_num)

end VSR
